import Mathlib

/-!
Verification of slots.py: the static table mapping Python magic methods to
CPython type-object slots, the comparison-operator table, and the two
mapping-derivation helpers GetBinaryOperatorMapping and
GetCompareFunctionMapping.

The embedding is shallow: each Python record class becomes a Lean structure,
the module-level literal tables become Lean list literals transcribed from the
source, and each dict comprehension becomes an explicit fold that mirrors
Python dict semantics (insertion order, a later duplicate key overwrites the
earlier value in place).
-/

set_option maxRecDepth 40000

/-- A slot record: how a Python magic method relates to a CPython opcode and a
C function pointer.  Fields mirror Slot.__init__ in slots.py: optional
arguments default to None (here `none`) for `index` and `opcode`, and to the
wildcard string for `python_version`. -/
structure Slot where
  python_name : String
  c_name : String
  function_type : String
  index : Option Nat
  opcode : Option String
  python_version : String
deriving DecidableEq

/-- A comparison-operator record, mirroring the CompareOp namedtuple with
fields op, index, magic. -/
structure CompareOp where
  op : String
  index : Nat
  magic : Option String
deriving DecidableEq

/-- Python truthiness of an optional string: None and the empty string are
falsy, every other string is truthy.  This is the test performed by the
comprehension guards `if slot.opcode` and `if magic`. -/
def pyTruthyStr : Option String → Bool
  | none => false
  | some s => s != ""

/-- Insert a key/value pair into an ordered association list the way a Python
dict does: if the key is already present, the value is overwritten in place
(keeping the key's original position); otherwise the pair is appended. -/
def dictInsert {K V : Type} [DecidableEq K] : List (K × V) → K → V → List (K × V)
  | [], k, v => [(k, v)]
  | p :: rest, k, v => if p.1 = k then (k, v) :: rest else p :: dictInsert rest k v

/-- Build a Python dict from the sequence of key/value pairs produced by a
comprehension, in order, with later duplicate keys overwriting earlier ones. -/
def dictComp {K V : Type} [DecidableEq K] (l : List (K × V)) : List (K × V) :=
  l.foldl (fun d p => dictInsert d p.1 p.2) []

/-- Look a key up in a dict represented as an ordered association list. -/
def dictGet {K V : Type} [DecidableEq K] : List (K × V) → K → Option V
  | [], _ => none
  | p :: rest, k => if p.1 = k then some p.2 else dictGet rest k

/-- The SLOTS table of slots.py, transcribed record by record.  Positional
fields are python_name, c_name, function_type; the remaining three fields are
the keyword arguments index, opcode, python_version with their defaults
(`none`, `none`, `"*"`) spelled out. -/
def SLOTS : List Slot := [
  Slot.mk "__new__" "tp_new" "new" none none "*",
  Slot.mk "__init__" "tp_init" "init" none none "*",
  Slot.mk "__str__" "tp_print" "print" none none "*",
  Slot.mk "__repr__" "tp_repr" "repr" none none "*",
  Slot.mk "__hash__" "tp_hash" "hash" none none "*",
  Slot.mk "__call__" "tp_call" "call" none none "*",
  Slot.mk "__getattribute__" "tp_getattro" "getattro" none none "*",
  Slot.mk "__getattr__" "tp_getattro" "getattro" none none "*",
  Slot.mk "__setattr__" "tp_setattro" "setattro" none none "*",
  Slot.mk "__delattr__" "tp_setattro" "setattro" none none "*",
  Slot.mk "__iter__" "tp_iter" "unary" none none "*",
  Slot.mk "next" "tp_iternext" "next" none none "2",
  Slot.mk "__next__" "tp_iternext" "next" none none "3",
  Slot.mk "__get__" "tp_descr_get" "descr_get" none none "*",
  Slot.mk "__set__" "tp_descr_set" "descr_set" none none "*",
  Slot.mk "__delete__" "tp_descr_set" "descr_delete" none none "*",
  Slot.mk "__del__" "tp_del" "destructor" none none "*",
  Slot.mk "__cmp__" "tp_compare" "cmp" none none "2",
  Slot.mk "__lt__" "tp_richcompare" "richcmpfunc" none none "*",
  Slot.mk "__le__" "tp_richcompare" "richcmpfunc" none none "*",
  Slot.mk "__eq__" "tp_richcompare" "richcmpfunc" none none "*",
  Slot.mk "__ne__" "tp_richcompare" "richcmpfunc" none none "*",
  Slot.mk "__gt__" "tp_richcompare" "richcmpfunc" none none "*",
  Slot.mk "__ge__" "tp_richcompare" "richcmpfunc" none none "*",
  Slot.mk "__richcompare__" "tp_richcompare" "richcmpfunc" none none "*",
  Slot.mk "__add__" "nb_add" "binary_nb" (some 0) (some "BINARY_ADD") "*",
  Slot.mk "__radd__" "nb_add" "binary_nb" (some 1) none "*",
  Slot.mk "__sub__" "nb_subtract" "binary_nb" (some 0) (some "BINARY_SUBTRACT") "*",
  Slot.mk "__rsub__" "nb_subtract" "binary_nb" (some 1) none "*",
  Slot.mk "__mul__" "nb_multiply" "binary_nb" (some 0) none "*",
  Slot.mk "__rmul__" "nb_multiply" "binary_nb" (some 1) none "*",
  Slot.mk "__div__" "nb_divide" "binary_nb" (some 0) (some "BINARY_DIVIDE") "*",
  Slot.mk "__rdiv__" "nb_divide" "binary_nb" (some 1) none "*",
  Slot.mk "__mod__" "nb_remainder" "binary_nb" (some 0) (some "BINARY_MODULO") "*",
  Slot.mk "__rmod__" "nb_remainder" "binary_nb" (some 1) none "*",
  Slot.mk "__divmod__" "nb_divmod" "binary_nb" (some 0) none "*",
  Slot.mk "__rdivmod__" "nb_divmod" "binary_nb" (some 1) none "*",
  Slot.mk "__lshift__" "nb_lshift" "binary_nb" (some 0) (some "BINARY_LSHIFT") "*",
  Slot.mk "__rlshift__" "nb_lshift" "binary_nb" (some 1) none "*",
  Slot.mk "__rshift__" "nb_rshift" "binary_nb" (some 0) (some "BINARY_RSHIFT") "*",
  Slot.mk "__rrshift__" "nb_rshift" "binary_nb" (some 1) none "*",
  Slot.mk "__and__" "nb_and" "binary_nb" (some 0) (some "BINARY_AND") "*",
  Slot.mk "__rand__" "nb_and" "binary_nb" (some 1) none "*",
  Slot.mk "__xor__" "nb_xor" "binary_nb" (some 0) (some "BINARY_XOR") "*",
  Slot.mk "__rxor__" "nb_xor" "binary_nb" (some 1) none "*",
  Slot.mk "__or__" "nb_or" "binary_nb" (some 0) (some "BINARY_OR") "*",
  Slot.mk "__ror__" "nb_or" "binary_nb" (some 1) none "*",
  Slot.mk "__floordiv__" "nb_floor_divide" "binary_nb" (some 0) (some "BINARY_FLOOR_DIVIDE") "*",
  Slot.mk "__rfloordiv__" "nb_floor_divide" "binary_nb" (some 1) none "*",
  Slot.mk "__truediv__" "nb_true_divide" "binary_nb" (some 0) (some "BINARY_TRUE_DIVIDE") "*",
  Slot.mk "__rtruediv__" "nb_true_divide" "binary_nb" (some 1) none "*",
  Slot.mk "__pow__" "nb_power" "ternary" none (some "BINARY_POWER") "*",
  Slot.mk "__rpow__" "nb_power" "ternary" none none "*",
  Slot.mk "__neg__" "nb_negative" "unary" none (some "UNARY_NEGATIVE") "*",
  Slot.mk "__pos__" "nb_positive" "unary" none (some "UNARY_POSITIVE") "*",
  Slot.mk "__abs__" "nb_absolute" "unary" none none "*",
  Slot.mk "__nonzero__" "nb_nonzero" "inquiry" none none "*",
  Slot.mk "__invert__" "nb_invert" "unary" none (some "UNARY_INVERT") "*",
  Slot.mk "__coerce__" "nb_coerce" "coercion" none none "*",
  Slot.mk "__int__" "nb_int" "unary" none none "*",
  Slot.mk "__long__" "nb_long" "unary" none none "*",
  Slot.mk "__float__" "nb_float" "unary" none none "*",
  Slot.mk "__oct__" "nb_oct" "unary" none none "*",
  Slot.mk "__hex__" "nb_hex" "unary" none none "*",
  Slot.mk "__iadd__" "nb_inplace_add" "binary" none (some "INPLACE_ADD") "*",
  Slot.mk "__isub__" "nb_inplace_subtract" "binary" none (some "INPLACE_SUBTRACT") "*",
  Slot.mk "__imul__" "nb_inplace_multiply" "binary" none (some "INPLACE_MUL") "*",
  Slot.mk "__idiv__" "nb_inplace_divide" "binary" none (some "INPLACE_DIV") "*",
  Slot.mk "__irem__" "nb_inplace_remainder" "binary" none (some "INPLACE_MODULO") "*",
  Slot.mk "__ipow__" "nb_inplace_power" "ternary" none (some "INPLACE_POWER") "*",
  Slot.mk "__ilshift__" "nb_inplace_lshift" "binary" none (some "INPLACE_LSHIFT") "*",
  Slot.mk "__irshift__" "nb_inplace_rshift" "binary" none (some "INPLACE_RSHIFT") "*",
  Slot.mk "__iand__" "nb_inplace_and" "binary" none (some "INPLACE_AND") "*",
  Slot.mk "__ixor__" "nb_inplace_xor" "binary" none (some "INPLACE_XOR") "*",
  Slot.mk "__ior__" "nb_inplace_or" "binary" none (some "INPLACE_OR") "*",
  Slot.mk "__ifloordiv__" "nb_inplace_floor_divide" "binary" none (some "INPLACE_FLOOR_DIVIDE") "*",
  Slot.mk "__itruediv__" "nb_inplace_true_divide" "binary" none (some "INPLACE_TRUE_DIVIDE") "*",
  Slot.mk "__index__" "nb_index" "unary" none none "*",
  Slot.mk "__getitem__" "mp_subscript" "binary" none (some "BINARY_SUBSCR") "*",
  Slot.mk "__delitem__" "mp_ass_subscript" "objobjargproc" (some 0) none "*",
  Slot.mk "__setitem__" "mp_ass_subscript" "objobjargproc" (some 1) none "*",
  Slot.mk "__len__" "mp_length" "len" none none "*",
  Slot.mk "__contains__" "sq_contains" "objobjproc" none none "*",
  Slot.mk "__add__" "sq_concat" "binary" none (some "BINARY_ADD") "*",
  Slot.mk "__mul__" "sq_repeat" "indexargfunc" none (some "BINARY_MULTIPLY") "*",
  Slot.mk "__iadd__" "sq_inplace_concat" "binary" none (some "INPLACE_ADD") "*",
  Slot.mk "__imul__" "sq_inplace_repeat" "indexargfunc" none (some "INPLACE_MUL") "*",
  Slot.mk "__getitem__" "sq_item" "sq_item" none (some "BINARY_SUBSCR") "*",
  Slot.mk "__setitem__" "sq_ass_slice" "sq_ass_item" none none "*",
  Slot.mk "__delitem__" "sq_ass_item" "sq_delitem" none none "*",
  Slot.mk "__getslice__" "sq_slice" "sq_slice" none none "*",
  Slot.mk "__setslice__" "sq_ass_slice" "ssizessizeobjarg" none none "*",
  Slot.mk "__delslice__" "sq_ass_slice" "delslice" none none "*"
]

/-- Index value of the comparison operator CMP_LT. -/
def CMP_LT : Nat := 0

/-- Index value of the comparison operator CMP_LE. -/
def CMP_LE : Nat := 1

/-- Index value of the comparison operator CMP_EQ. -/
def CMP_EQ : Nat := 2

/-- Index value of the comparison operator CMP_NE. -/
def CMP_NE : Nat := 3

/-- Index value of the comparison operator CMP_GT. -/
def CMP_GT : Nat := 4

/-- Index value of the comparison operator CMP_GE. -/
def CMP_GE : Nat := 5

/-- Index value of the comparison operator CMP_IN. -/
def CMP_IN : Nat := 6

/-- Index value of the comparison operator CMP_NOT_IN. -/
def CMP_NOT_IN : Nat := 7

/-- Index value of the comparison operator CMP_IS. -/
def CMP_IS : Nat := 8

/-- Index value of the comparison operator CMP_IS_NOT. -/
def CMP_IS_NOT : Nat := 9

/-- Index value of the comparison operator CMP_EXC_MATCH; note it equals
CMP_IS_NOT in the source. -/
def CMP_EXC_MATCH : Nat := 9

/-- The COMPARE_OPS table of slots.py, transcribed record by record. -/
def COMPARE_OPS : List CompareOp := [
  CompareOp.mk "LT" CMP_LT (some "__lt__"),
  CompareOp.mk "LE" CMP_LE (some "__le__"),
  CompareOp.mk "EQ" CMP_EQ (some "__eq__"),
  CompareOp.mk "NE" CMP_NE (some "__ne__"),
  CompareOp.mk "GT" CMP_GT (some "__gt__"),
  CompareOp.mk "GE" CMP_GE (some "__ge__"),
  CompareOp.mk "IN" CMP_IN none,
  CompareOp.mk "NOT_IN" CMP_NOT_IN none,
  CompareOp.mk "IS" CMP_IS none,
  CompareOp.mk "IS_NOT" CMP_IS_NOT none,
  CompareOp.mk "EXC_MATCH" CMP_EXC_MATCH none
]

/-- The key computed for a slot carrying opcode `o`: the Python expression
slot.opcode[len("BINARY_"):], i.e. the opcode with its first
len("BINARY_") = 7 characters removed, whatever those characters are. -/
def binaryKeyOf (o : String) : String := String.mk (o.data.drop (String.length "BINARY_"))

/-- The body of GetBinaryOperatorMapping parametrised by the slot table it
reads: the dict comprehension filters for slots with a truthy opcode and maps
each to the pair (slot.opcode[len("BINARY_"):], slot.python_name). -/
def gbmOn (slots : List Slot) : List (String × String) :=
  dictComp ((slots.filter (fun s => pyTruthyStr s.opcode)).map
    (fun s => (binaryKeyOf (s.opcode.getD ""), s.python_name)))

/-- GetBinaryOperatorMapping of slots.py, reading the global SLOTS table. -/
def GetBinaryOperatorMapping : List (String × String) := gbmOn SLOTS

/-- The body of GetCompareFunctionMapping parametrised by the table it reads:
the dict comprehension filters for records with a truthy magic field and maps
each to the pair (index, magic). -/
def gcfOn (ops : List CompareOp) : List (Nat × String) :=
  dictComp ((ops.filter (fun c => pyTruthyStr c.magic)).map
    (fun c => (c.index, c.magic.getD "")))

/-- GetCompareFunctionMapping of slots.py, reading the global COMPARE_OPS
table. -/
def GetCompareFunctionMapping : List (Nat × String) := gcfOn COMPARE_OPS

/-- Error-aware construction of the binary-operator comprehension entries: the
Python expression slot.opcode[len("BINARY_"):] raises a TypeError when
slot.opcode is None, which this model signals with `none`; entries are built
only for the slots that pass the comprehension filter. -/
def binaryEntriesChecked : List Slot → Option (List (String × String))
  | [] => some []
  | s :: rest =>
    match s.opcode with
    | none => none
    | some o => (binaryEntriesChecked rest).map (fun es => (binaryKeyOf o, s.python_name) :: es)

/-- Error-aware GetBinaryOperatorMapping: returns `none` exactly when some
slot passing the comprehension filter has opcode None, in which case the
Python code would raise instead of returning a dict. -/
def GetBinaryOperatorMappingChecked : Option (List (String × String)) :=
  (binaryEntriesChecked (SLOTS.filter (fun s => pyTruthyStr s.opcode))).map dictComp

/-- The mutable module state visible to the two accessor functions: the SLOTS
and COMPARE_OPS tables, every record and every field included. -/
structure PyState where
  slots : List Slot
  compare_ops : List CompareOp
deriving DecidableEq

/-- The state of the module right after its definition is executed. -/
def initState : PyState := PyState.mk SLOTS COMPARE_OPS

/-- A call to one of the two accessor functions. -/
inductive Call
  | binOp
  | cmpFn
deriving DecidableEq

/-- The value returned by a call to an accessor function. -/
inductive CallResult
  | binMap : List (String × String) → CallResult
  | cmpMap : List (Nat × String) → CallResult
deriving DecidableEq

/-- Executing one accessor call against the module state: each function reads
the tables from the state and returns the derived dict, leaving the state as
its updated-state component. -/
def step (st : PyState) : Call → PyState × CallResult
  | Call.binOp => (st, CallResult.binMap (gbmOn st.slots))
  | Call.cmpFn => (st, CallResult.cmpMap (gcfOn st.compare_ops))

/-- Executing a whole sequence of accessor calls from a state, collecting the
results in order. -/
def runTrace (st : PyState) : List Call → PyState × List CallResult
  | [] => (st, [])
  | c :: rest =>
    ((runTrace (step st c).1 rest).1, (step st c).2 :: (runTrace (step st c).1 rest).2)

/-- Whether the first character list starts the second one. -/
def isPfxOf : List Char → List Char → Bool
  | [], _ => true
  | _ :: _, [] => false
  | a :: as, b :: bs => a == b && isPfxOf as bs

/-- Strip the string p from the front of s only when s actually starts with p,
otherwise return s unchanged: the plain-language reading of stripping a
prefix, used to state the specification's description of the derived keys. -/
def stripBinarySpec (p s : String) : String :=
  if isPfxOf p.data s.data then String.mk (s.data.drop (String.length p)) else s

/-- Executing one accessor call never modifies the module state. -/
theorem step_fst (st : PyState) (c : Call) : (step st c).1 = st := by
  cases c <;> rfl

/-- Executing any sequence of accessor calls never modifies the module
state. -/
theorem runTrace_fst (cs : List Call) : ∀ st : PyState, (runTrace st cs).1 = st := by
  induction cs with
  | nil => intro st; rfl
  | cons c rest ih =>
      intro st
      have h : (runTrace st (c :: rest)).1 = (runTrace (step st c).1 rest).1 := rfl
      rw [h, ih ((step st c).1), step_fst]

/-- Claim C5: every Slot record in SLOTS has a non-empty python_name and a
non-empty c_name. -/
theorem c5_names_nonempty : ∀ s ∈ SLOTS, s.python_name ≠ "" ∧ s.c_name ≠ "" := by
  decide

/-- Witness for C5 at the first record of SLOTS. -/
theorem c5_names_nonempty_witness :
    (Slot.mk "__new__" "tp_new" "new" none none "*").python_name ≠ "" ∧
    (Slot.mk "__new__" "tp_new" "new" none none "*").c_name ≠ "" :=
  c5_names_nonempty (Slot.mk "__new__" "tp_new" "new" none none "*") (by decide)

/-- Claim C7: every Slot record in SLOTS has index either absent or equal to
0 or 1. -/
theorem c7_index_values :
    ∀ s ∈ SLOTS, s.index = none ∨ s.index = some 0 ∨ s.index = some 1 := by
  decide

/-- Witness for C7 at the nb_add record for __add__. -/
theorem c7_index_values_witness :
    (Slot.mk "__add__" "nb_add" "binary_nb" (some 0) (some "BINARY_ADD") "*").index = none ∨
    (Slot.mk "__add__" "nb_add" "binary_nb" (some 0) (some "BINARY_ADD") "*").index = some 0 ∨
    (Slot.mk "__add__" "nb_add" "binary_nb" (some 0) (some "BINARY_ADD") "*").index = some 1 :=
  c7_index_values (Slot.mk "__add__" "nb_add" "binary_nb" (some 0) (some "BINARY_ADD") "*")
    (by decide)

/-- Claim C8: every Slot record in SLOTS has python_version equal to "2",
"3", or the wildcard "*". -/
theorem c8_python_version_values :
    ∀ s ∈ SLOTS,
      s.python_version = "2" ∨ s.python_version = "3" ∨ s.python_version = "*" := by
  decide

/-- Witness for C8 at the Python-2-only record for next. -/
theorem c8_python_version_values_witness :
    (Slot.mk "next" "tp_iternext" "next" none none "2").python_version = "2" ∨
    (Slot.mk "next" "tp_iternext" "next" none none "2").python_version = "3" ∨
    (Slot.mk "next" "tp_iternext" "next" none none "2").python_version = "*" :=
  c8_python_version_values (Slot.mk "next" "tp_iternext" "next" none none "2") (by decide)

/-- Claim C2: GetCompareFunctionMapping contains exactly the entries of
COMPARE_OPS that declare a magic name: every record with magic = some m
contributes the entry (index, m), and every entry of the mapping comes from
such a record; no other keys are present. -/
theorem c2_compare_mapping_exact :
    (∀ c ∈ COMPARE_OPS, ∀ m ∈ c.magic.toList,
        dictGet GetCompareFunctionMapping c.index = some m) ∧
    (∀ p ∈ GetCompareFunctionMapping,
        ∃ c ∈ COMPARE_OPS, c.index = p.1 ∧ c.magic = some p.2) := by
  decide

/-- Witness for C2 at the LT record. -/
theorem c2_compare_mapping_exact_witness :
    dictGet GetCompareFunctionMapping (CompareOp.mk "LT" CMP_LT (some "__lt__")).index =
      some "__lt__" :=
  c2_compare_mapping_exact.1 (CompareOp.mk "LT" CMP_LT (some "__lt__")) (by decide)
    "__lt__" (by decide)

/-- Claim C3: both accessors are total.  The error-aware construction, which
returns `none` exactly when the slice slot.opcode[len("BINARY_"):] would be
applied to a record whose opcode is None, in fact returns the mapping; and
every record passing the comprehension filter has a present opcode. -/
theorem c3_total_no_error :
    GetBinaryOperatorMappingChecked = some GetBinaryOperatorMapping ∧
    ∀ s ∈ SLOTS.filter (fun t => pyTruthyStr t.opcode), s.opcode.isSome = true := by
  decide

/-- Witness for C3 at the nb_add record for __add__, which passes the
comprehension filter. -/
theorem c3_total_no_error_witness :
    (Slot.mk "__add__" "nb_add" "binary_nb" (some 0) (some "BINARY_ADD") "*").opcode.isSome
      = true :=
  c3_total_no_error.2 (Slot.mk "__add__" "nb_add" "binary_nb" (some 0) (some "BINARY_ADD") "*")
    (by decide)

/-- Claim C10: GetCompareFunctionMapping is exactly the six-entry dict from
indices 0..5 to the six rich-comparison names; indices 6 through 9 are absent;
CMP_IS_NOT and CMP_EXC_MATCH share the value 9, and every COMPARE_OPS record
with index 9 has magic None, so no key collision occurs. -/
theorem c10_compare_mapping_literal :
    (GetCompareFunctionMapping =
        [(0, "__lt__"), (1, "__le__"), (2, "__eq__"),
         (3, "__ne__"), (4, "__gt__"), (5, "__ge__")] ∧
      dictGet GetCompareFunctionMapping 6 = none ∧
      dictGet GetCompareFunctionMapping 7 = none ∧
      dictGet GetCompareFunctionMapping 8 = none ∧
      dictGet GetCompareFunctionMapping 9 = none ∧
      CMP_IS_NOT = 9 ∧ CMP_EXC_MATCH = 9) ∧
    (∀ c ∈ COMPARE_OPS, c.index = 9 → c.magic = none) := by
  decide

/-- Witness for C10 at the IS_NOT record. -/
theorem c10_compare_mapping_literal_witness :
    (CompareOp.mk "IS_NOT" CMP_IS_NOT none).magic = none :=
  c10_compare_mapping_literal.2 (CompareOp.mk "IS_NOT" CMP_IS_NOT none) (by decide) (by decide)

/-- Claim C1 counterexample: the record for __neg__ declares the opcode
UNARY_NEGATIVE, whose name with the "BINARY_" prefix stripped is
UNARY_NEGATIVE itself (it has no such prefix), yet the mapping has no key
"UNARY_NEGATIVE"; moreover 34 records declare an opcode while the mapping has
only 30 entries, so the mapping does not contain one entry per such record. -/
theorem c1_binary_mapping_counterexample :
    (∃ s ∈ SLOTS, s.opcode = some "UNARY_NEGATIVE" ∧ s.python_name = "__neg__") ∧
    stripBinarySpec "BINARY_" "UNARY_NEGATIVE" = "UNARY_NEGATIVE" ∧
    dictGet GetBinaryOperatorMapping "UNARY_NEGATIVE" = none ∧
    (SLOTS.filter (fun s => pyTruthyStr s.opcode)).length = 34 ∧
    GetBinaryOperatorMapping.length = 30 := by
  decide

/-- Claim C1 as amended: the mapping's keys are pairwise distinct, every Slot
record with a truthy opcode o contributes the entry whose key is o with its
first len("BINARY_") = 7 characters removed (whatever they are) and whose
value is the record's python_name, and every entry of the mapping arises from
such a record; no other keys are present. -/
theorem c1_binary_mapping_amended :
    ((GetBinaryOperatorMapping.map Prod.fst).Nodup ∧
      ∀ s ∈ SLOTS, ∀ o ∈ s.opcode.toList, o ≠ "" →
        dictGet GetBinaryOperatorMapping (binaryKeyOf o) = some s.python_name) ∧
    (∀ p ∈ GetBinaryOperatorMapping,
      ∃ s ∈ SLOTS, ∃ o ∈ s.opcode.toList,
        o ≠ "" ∧ binaryKeyOf o = p.1 ∧ s.python_name = p.2) := by
  decide

/-- Witness for the amended C1 at the __neg__ record: its UNARY_NEGATIVE
opcode is looked up under the 7-characters-removed key. -/
theorem c1_binary_mapping_amended_witness :
    dictGet GetBinaryOperatorMapping (binaryKeyOf "UNARY_NEGATIVE") = some "__neg__" :=
  c1_binary_mapping_amended.1.2
    (Slot.mk "__neg__" "nb_negative" "unary" none (some "UNARY_NEGATIVE") "*") (by decide)
    "UNARY_NEGATIVE" (by decide) (by decide)

/-- Claim C9: any two SLOTS records declaring the same present opcode carry
the same python_name, and consequently every record with a truthy opcode finds
its own python_name in the final mapping, whichever duplicate overwrote the
other. -/
theorem c9_duplicate_opcode_consistent :
    (∀ s1 ∈ SLOTS, ∀ s2 ∈ SLOTS, ∀ o ∈ s1.opcode.toList, s2.opcode = some o →
        s1.python_name = s2.python_name) ∧
    (∀ s ∈ SLOTS, ∀ o ∈ s.opcode.toList, o ≠ "" →
        dictGet GetBinaryOperatorMapping (binaryKeyOf o) = some s.python_name) := by
  decide

/-- Witness for C9 at the two records that both declare BINARY_ADD. -/
theorem c9_duplicate_opcode_consistent_witness :
    (Slot.mk "__add__" "nb_add" "binary_nb" (some 0) (some "BINARY_ADD") "*").python_name =
      (Slot.mk "__add__" "sq_concat" "binary" none (some "BINARY_ADD") "*").python_name :=
  c9_duplicate_opcode_consistent.1
    (Slot.mk "__add__" "nb_add" "binary_nb" (some 0) (some "BINARY_ADD") "*") (by decide)
    (Slot.mk "__add__" "sq_concat" "binary" none (some "BINARY_ADD") "*") (by decide)
    "BINARY_ADD" (by decide) (by decide)

/-- Claim C4: the accessors are deterministic across calls: after any two
call histories from the initial module state, a further call to either
accessor returns the same value. -/
theorem c4_deterministic (cs1 cs2 : List Call) :
    (step (runTrace initState cs1).1 Call.binOp).2 =
      (step (runTrace initState cs2).1 Call.binOp).2 ∧
    (step (runTrace initState cs1).1 Call.cmpFn).2 =
      (step (runTrace initState cs2).1 Call.cmpFn).2 := by
  rw [runTrace_fst cs1 initState, runTrace_fst cs2 initState]
  exact ⟨rfl, rfl⟩

/-- Witness for C4 at two concrete call histories. -/
theorem c4_deterministic_witness :
    (step (runTrace initState [Call.binOp]).1 Call.binOp).2 =
      (step (runTrace initState [Call.cmpFn, Call.binOp]).1 Call.binOp).2 ∧
    (step (runTrace initState [Call.binOp]).1 Call.cmpFn).2 =
      (step (runTrace initState [Call.cmpFn, Call.binOp]).1 Call.cmpFn).2 :=
  c4_deterministic [Call.binOp] [Call.cmpFn, Call.binOp]

/-- Claim C6: executing any sequence of accessor calls from the initial
module state leaves the SLOTS and COMPARE_OPS tables unchanged, every record
and field included. -/
theorem c6_tables_unchanged (cs : List Call) :
    (runTrace initState cs).1.slots = SLOTS ∧
    (runTrace initState cs).1.compare_ops = COMPARE_OPS := by
  rw [runTrace_fst cs initState]
  exact ⟨rfl, rfl⟩

/-- Witness for C6 at a concrete call sequence. -/
theorem c6_tables_unchanged_witness :
    (runTrace initState [Call.binOp, Call.cmpFn, Call.binOp]).1.slots = SLOTS ∧
    (runTrace initState [Call.binOp, Call.cmpFn, Call.binOp]).1.compare_ops = COMPARE_OPS :=
  c6_tables_unchanged [Call.binOp, Call.cmpFn, Call.binOp]
